import Mathlib

/-!
# Verification of the sentiment-table view of `app_sentimento_rock.py`

Shallow embedding of the filter/aggregation pipeline of the Streamlit app
`src/app_sentimento_rock.py`.  A row of the CSV becomes a `Record`; the
pandas DataFrame becomes a `List Record` (rows in file order); pandas
`float64` polarity values are modelled as `ℚ`; pandas `NaN` results on
empty aggregations are modelled as `Option.none`.

Modelling choices, recorded once:

* `df[cond]` boolean-mask filtering is `List.filter` (pandas keeps the
  surviving rows in their original order).
* `groupby("artista")` uses the pandas default `sort=True`: group keys are
  the distinct artists sorted ascending by string order.
* `sort_values(kind="quicksort")` sorts by the key but leaves the
  relative order of tied elements unspecified (pandas documents the
  default quicksort as not stable).  The embedding must pick one concrete
  executable order and uses `List.insertionSort` by `≤` on the key; for
  the descending direction pandas computes the ascending argsort and
  reverses it (`nargsort`: `indexer = indexer[::-1]` when
  `ascending=False`), so `sort_values(ascending=False)` is embedded as
  `reverse` of the ascending sort.  No universally quantified theorem
  below depends on the embedding's tie order — only on sortedness,
  length, and membership, which hold for every sort kernel.  Concrete
  evaluations are on arrays of at most 16 elements, where numpy's
  quicksort kernel is exactly insertion sort followed by the reversal,
  so on those inputs the embedding reproduces the program's actual
  deterministic output.
* `round(x, 3)` display rounding is embedded with `Rat.round`; Python
  rounds half-to-even while `round` on `ℚ` rounds half up, a divergence
  only at exact half-thousandths, on which no property below depends.
-/

namespace SentimentoRock

/-- One row of `letras_sentimento.csv`, with the columns the app reads. -/
structure Record where
  titulo : String
  artista : String
  letra : String
  idioma_detectado : String
  sent_polarity : ℚ
  tam_letra : ℕ
deriving DecidableEq

/-- Embedding of the filter block (source lines 70–75):
`df_filtrado = df.copy()`; filter by `artista.isin` when `artista_sel` is
non-empty; filter by `idioma_detectado.isin` when `idioma_sel` is
non-empty; then keep `min_pol ≤ sent_polarity ≤ max_pol`. -/
def apply_filters (df : List Record) (artista_sel idioma_sel : List String)
    (min_pol max_pol : ℚ) : List Record :=
  let d1 := if artista_sel.isEmpty then df
    else df.filter (fun r => artista_sel.contains r.artista)
  let d2 := if idioma_sel.isEmpty then d1
    else d1.filter (fun r => idioma_sel.contains r.idioma_detectado)
  d2.filter (fun r => decide (min_pol ≤ r.sent_polarity) &&
    decide (r.sent_polarity ≤ max_pol))

/-- Spec-side predicate, written from the spec's words: "(`artists` empty
OR record.artist ∈ artists) AND (`languages` empty OR
record.detected_language ∈ languages) AND (`min ≤ record.polarity ≤ max`)".
Used only to compare with `apply_filters`. -/
def filter_spec_pred (artista_sel idioma_sel : List String)
    (min_pol max_pol : ℚ) (r : Record) : Prop :=
  (artista_sel = [] ∨ r.artista ∈ artista_sel) ∧
  (idioma_sel = [] ∨ r.idioma_detectado ∈ idioma_sel) ∧
  (min_pol ≤ r.sent_polarity ∧ r.sent_polarity ≤ max_pol)

instance (artista_sel idioma_sel : List String) (min_pol max_pol : ℚ) :
    DecidablePred (filter_spec_pred artista_sel idioma_sel min_pol max_pol) :=
  fun r => by unfold filter_spec_pred; infer_instance

/-- Spec-side filter, written from the spec's words: the subsequence of
records satisfying `filter_spec_pred`. -/
def apply_filters_spec (df : List Record) (artista_sel idioma_sel : List String)
    (min_pol max_pol : ℚ) : List Record :=
  df.filter (fun r => decide (filter_spec_pred artista_sel idioma_sel min_pol max_pol r))

/-- Display rounding `round(x, 3)` (source lines 84, 86). -/
def round3 (q : ℚ) : ℚ := (round (q * 1000) : ℤ) / 1000

/-- pandas `Series.mean()`: sum divided by count, `NaN` (here `none`) on an
empty series. -/
def seriesMean (xs : List ℚ) : Option ℚ :=
  if xs.isEmpty then none else some (xs.sum / xs.length)

/-- pandas `Series.max()`: `NaN` (here `none`) on an empty series. -/
def seriesMax (xs : List ℚ) : Option ℚ := xs.max?

/-- The metrics block (source lines 80–86): count, rounded mean polarity,
rounded max polarity of the filtered table. -/
def summary_metrics (df : List Record) : ℕ × Option ℚ × Option ℚ :=
  (df.length,
   (seriesMean (df.map Record.sent_polarity)).map round3,
   (seriesMax (df.map Record.sent_polarity)).map round3)

/-- Key-based comparison used to embed `sort_values` on a numeric column. -/
def keyLe {α : Type} (key : α → ℚ) (a b : α) : Prop := key a ≤ key b

instance {α : Type} (key : α → ℚ) : DecidableRel (keyLe key) :=
  fun a b => inferInstanceAs (Decidable (key a ≤ key b))

instance {α : Type} (key : α → ℚ) : IsTotal α (keyLe key) :=
  ⟨fun a b => le_total (key a) (key b)⟩

instance {α : Type} (key : α → ℚ) : IsTrans α (keyLe key) :=
  ⟨fun _ _ _ h1 h2 => le_trans h1 h2⟩

/-- Stable ascending sort by a numeric key: the model of
`sort_values(ascending=True)`. -/
def sortByKey {α : Type} (key : α → ℚ) (l : List α) : List α :=
  List.insertionSort (keyLe key) l

/-- String comparison for group keys. -/
def strLe (a b : String) : Prop := a ≤ b

instance : DecidableRel strLe := fun a b => inferInstanceAs (Decidable (a ≤ b))

instance : IsTotal String strLe := ⟨fun a b => le_total a b⟩

instance : IsTrans String strLe := ⟨fun _ _ _ h1 h2 => le_trans h1 h2⟩

/-- `groupby("artista")` group keys (pandas default `sort=True`): the
distinct artists of the table, sorted ascending. -/
def groupKeys (df : List Record) : List String :=
  List.insertionSort strLe (df.map Record.artista).dedup

/-- Mean `sent_polarity` of one artist's group.  Groups arising from
`groupby` are non-empty, so the division is by a positive count. -/
def groupMean (df : List Record) (a : String) : ℚ :=
  let xs := (df.filter (fun r => decide (r.artista = a))).map Record.sent_polarity
  xs.sum / xs.length

/-- The per-artist mean series produced by
`df_filtrado.groupby("artista")["sent_polarity"].mean()`: one
`(artist, mean)` pair per distinct artist, keys in ascending order. -/
def artPairs (df : List Record) : List (String × ℚ) :=
  (groupKeys df).map (fun a => (a, groupMean df a))

/-- Embedding of `art_group` (source lines 111–117): group by artist, mean
polarity, `sort_values(ascending=False)` (reverse of the stable ascending
sort), `head(k)` with `k = 20` in the source. -/
def art_group (df : List Record) (k : ℕ := 20) : List (String × ℚ) :=
  ((sortByKey Prod.snd (artPairs df)).reverse).take k

/-- Stable ascending sort of the table by `sent_polarity`. -/
def sortPolAsc (df : List Record) : List Record :=
  List.insertionSort (keyLe Record.sent_polarity) df

/-- `top_pos` (source line 150):
`df_filtrado.sort_values("sent_polarity", ascending=False).head(10)`;
pandas reverses the ascending argsort for the descending direction. -/
def top_pos (df : List Record) (k : ℕ := 10) : List Record :=
  ((sortPolAsc df).reverse).take k

/-- `top_neg` (source line 151):
`df_filtrado.sort_values("sent_polarity", ascending=True).head(10)`. -/
def top_neg (df : List Record) (k : ℕ := 10) : List Record :=
  (sortPolAsc df).take k

/-- Embedding of the tab-4 lyrics display (source lines 155–165): the
button reveals `st.text_area("", row['letra'], height=200)` — the full
lyrics body, with no truncation. -/
def lyric_display (r : Record) : String := r.letra

/-- Column minimum used for the polarity slider's default lower bound
(source line 64): `float(df['sent_polarity'].min())`; `NaN` (none) on an
empty column. -/
def colMin (df : List Record) : Option ℚ := (df.map Record.sent_polarity).min?

/-- Column maximum used for the polarity slider's default upper bound
(source line 65). -/
def colMax (df : List Record) : Option ℚ := (df.map Record.sent_polarity).max?

/-- How `carregar_dados` (source lines 39–45) can end: a loaded table, or
a Python exception escaping the function. -/
inductive LoadResult where
  | ok : List Record → LoadResult
  | exn : LoadResult
deriving DecidableEq

/-- The path tried first by `carregar_dados`. -/
def primaryPath : String := "analise_sentimento_outputs/letras_sentimento.csv"

/-- The fallback path tried after a `FileNotFoundError` on the primary. -/
def fallbackPath : String := "letras_sentimento.csv"

/-- Embedding of `carregar_dados` (source lines 39–45).  The filesystem is
a map from path to the table stored there (`none` = file absent).
`pd.read_csv` on an absent file raises `FileNotFoundError`; only the
exception of the FIRST read is caught, so an absent fallback file makes
the second `read_csv` raise out of the function. -/
def carregar_dados (fs : String → Option (List Record)) : LoadResult :=
  match fs primaryPath with
  | some df => .ok df
  | none =>
    match fs fallbackPath with
    | some df => .ok df
    | none => .exn

/-- Observable outcome of the top of the script (source lines 47–51):
`crash` = an exception escaped (Streamlit shows a traceback, not the
app's own message); `noData` = the `st.error` + `st.stop` branch for an
empty table (blocking message, rendering halted); `rendered df` = the
dashboard is rendered from table `df`. -/
inductive AppOutcome where
  | crash : AppOutcome
  | noData : AppOutcome
  | rendered : List Record → AppOutcome
deriving DecidableEq

/-- The load-and-guard prefix of the script: `df = carregar_dados()`;
`if df.empty: st.error(...); st.stop()`; otherwise rendering proceeds. -/
def runApp (fs : String → Option (List Record)) : AppOutcome :=
  match carregar_dados fs with
  | .exn => .crash
  | .ok df => if df.isEmpty then .noData else .rendered df

/-- The derived views the UI renders from the filtered table. -/
structure Views where
  filtrado : List Record
  metrics : ℕ × Option ℚ × Option ℚ
  artGroup : List (String × ℚ)
  topPos : List Record
  topNeg : List Record
deriving DecidableEq

/-- One recomputation pass, as explicit state passing: the loaded table is
the state, the pass reads it (`df.copy()` at source line 70 starts from a
copy) and returns both the state as left after the pass and the derived
views.  All view computations are on the copy. -/
def compute_views (df : List Record) (artista_sel idioma_sel : List String)
    (min_pol max_pol : ℚ) : List Record × Views :=
  let dfc := df
  let f := apply_filters dfc artista_sel idioma_sel min_pol max_pol
  (df,
   { filtrado := f
     metrics := summary_metrics f
     artGroup := art_group f 20
     topPos := top_pos f 10
     topNeg := top_neg f 10 })

/-! ## Helper lemmas -/

/-- The three sequential mask filters collapse to one filter by the
conjunction predicate of the spec. -/
theorem apply_filters_eq_filter (df : List Record)
    (artista_sel idioma_sel : List String) (min_pol max_pol : ℚ) :
    apply_filters df artista_sel idioma_sel min_pol max_pol
      = df.filter (fun r =>
          decide (filter_spec_pred artista_sel idioma_sel min_pol max_pol r)) := by
  unfold apply_filters
  split_ifs with hA hI hI <;>
    simp only [List.filter_filter] <;>
    (apply List.filter_congr; intro r hr;
     simp_all [filter_spec_pred, List.isEmpty_iff, decide_eq_true_eq,
       Bool.and_comm, Bool.and_assoc, Bool.and_left_comm])

/-! ## Claim theorems -/

/-- C1: for every input table and every filter selection, `apply_filters`
returns exactly the subsequence of records satisfying the three spec
predicates (artist-set, language-set, closed polarity interval); the
result is a sublist of the input (no record invented, original order
preserved), and membership is characterised by the predicates. -/
theorem apply_filters_correct (df : List Record)
    (artista_sel idioma_sel : List String) (min_pol max_pol : ℚ) :
    apply_filters df artista_sel idioma_sel min_pol max_pol
      = apply_filters_spec df artista_sel idioma_sel min_pol max_pol ∧
    (apply_filters df artista_sel idioma_sel min_pol max_pol).Sublist df ∧
    ∀ r : Record,
      r ∈ apply_filters df artista_sel idioma_sel min_pol max_pol ↔
        r ∈ df ∧ filter_spec_pred artista_sel idioma_sel min_pol max_pol r := by
  refine ⟨apply_filters_eq_filter df artista_sel idioma_sel min_pol max_pol, ?_, ?_⟩
  · rw [apply_filters_eq_filter]
    exact List.filter_sublist df
  · intro r
    rw [apply_filters_eq_filter]
    simp [List.mem_filter]

/-- C2: on the empty table `summary_metrics` yields count 0 and reports
mean and max polarity as absent (`none`, the embedding of pandas `NaN`);
the computation is a total function, so no exception is raised. -/
theorem summary_metrics_empty : summary_metrics [] = (0, none, none) := by
  simp [summary_metrics, seriesMean, seriesMax]

/-- C6: an inverted polarity range (`max_pol < min_pol`) makes
`apply_filters` return the empty sequence, for every table and every
artist/language selection; the bounds are not swapped. -/
theorem apply_filters_inverted (df : List Record)
    (artista_sel idioma_sel : List String) (min_pol max_pol : ℚ)
    (h : max_pol < min_pol) :
    apply_filters df artista_sel idioma_sel min_pol max_pol = [] := by
  unfold apply_filters
  rw [List.filter_eq_nil_iff]
  intro r hr
  simp only [Bool.and_eq_true, decide_eq_true_eq, not_and]
  intro h1 h2
  exact absurd (le_trans h1 h2) (not_le.mpr h)

/-- Witness for C6 at a concrete table and the spec's scenario range
`(0.5, -0.5)`. -/
theorem apply_filters_inverted_witness :
    ((-1 : ℚ)/2 < 1/2) ∧
    apply_filters [⟨"t1", "A", "x", "en", 1/2, 1⟩] [] [] (1/2) (-(1/2)) = [] :=
  ⟨by norm_num,
   apply_filters_inverted [⟨"t1", "A", "x", "en", 1/2, 1⟩] [] [] (1/2) (-(1/2))
     (by norm_num)⟩

/-- C10: with the default UI selections — no artist, no language, and the
polarity slider at its default `[column min, column max]` — the filter
pipeline returns the whole table unchanged, in order. -/
theorem default_filters_identity (df : List Record) (min_pol max_pol : ℚ)
    (_hne : df ≠ [])
    (hmn : colMin df = some min_pol) (hmx : colMax df = some max_pol) :
    apply_filters df [] [] min_pol max_pol = df := by
  unfold apply_filters
  simp only [List.isEmpty_nil, if_true]
  rw [List.filter_eq_self]
  intro r hr
  have hmem : r.sent_polarity ∈ df.map Record.sent_polarity :=
    List.mem_map_of_mem Record.sent_polarity hr
  have h1 : min_pol ≤ r.sent_polarity :=
    (List.le_min?_iff (fun a b c => le_min_iff) hmn).mp le_rfl _ hmem
  have h2 : r.sent_polarity ≤ max_pol :=
    (List.max?_le_iff (fun a b c => max_le_iff) hmx).mp le_rfl _ hmem
  simp [h1, h2]

/-- Witness for C10 on a concrete one-row table. -/
theorem default_filters_identity_witness :
    ([⟨"t1", "A", "x", "en", 1/2, 1⟩] : List Record) ≠ [] ∧
    colMin [⟨"t1", "A", "x", "en", 1/2, 1⟩] = some (1/2) ∧
    colMax [⟨"t1", "A", "x", "en", 1/2, 1⟩] = some (1/2) ∧
    apply_filters [⟨"t1", "A", "x", "en", 1/2, 1⟩] [] [] (1/2) (1/2)
      = [⟨"t1", "A", "x", "en", 1/2, 1⟩] :=
  ⟨by simp, by simp [colMin], by simp [colMax],
   default_filters_identity [⟨"t1", "A", "x", "en", 1/2, 1⟩] (1/2) (1/2)
     (by simp) (by simp [colMin]) (by simp [colMax])⟩

/-- C9: one recomputation pass over the loaded table leaves the source
table exactly as it was — the pass only produces filtered/derived copies
(`df.copy()` and pandas mask filters allocate new frames); every record of
the original table is unchanged after all four view computations. -/
theorem compute_views_frame (df : List Record)
    (artista_sel idioma_sel : List String) (min_pol max_pol : ℚ) :
    (compute_views df artista_sel idioma_sel min_pol max_pol).1 = df ∧
    ∀ r ∈ df, r ∈ (compute_views df artista_sel idioma_sel min_pol max_pol).1 :=
  ⟨rfl, fun _ hr => hr⟩

/-- C8 evaluation: with both CSV paths absent the app crashes with an
uncaught `FileNotFoundError` (the `except` branch's `read_csv` raises out
of `carregar_dados`), instead of the claimed blocking "no data" message;
the handled branch only fires for a successfully loaded empty table. -/
theorem carregar_dados_missing_crashes :
    runApp (fun _ => none) = AppOutcome.crash ∧
    runApp (fun p => if p = primaryPath then some [] else none)
      = AppOutcome.noData := by
  constructor
  · simp [runApp, carregar_dados]
  · simp [runApp, carregar_dados, primaryPath, fallbackPath]

/-- A record whose lyrics are exactly 300 characters long — at the spec's
default `max_chars = 300`, so the claimed truncation marker would apply. -/
def rec300 : Record :=
  ⟨"t300", "A", String.mk (List.replicate 300 'a'), "en", 0, 300⟩

/-- C7 counterexample: for lyrics of length 300 (≥ `max_chars = 300`) the
code's display is NOT "the first 300 characters followed by a truncation
marker" for any non-empty marker: the display is the bare lyrics. -/
theorem lyric_display_ctrex :
    rec300.letra.length = 300 ∧
    ¬ ∃ marker : List Char, marker ≠ [] ∧
      (lyric_display rec300).data = rec300.letra.data.take 300 ++ marker := by
  constructor
  · simp only [rec300, String.length_mk, List.length_replicate]
  · rintro ⟨marker, hne, heq⟩
    apply hne
    have hdata : (lyric_display rec300).data = List.replicate 300 'a' := rfl
    rw [hdata] at heq
    have htake : rec300.letra.data.take 300 = List.replicate 300 'a' := by
      show (List.replicate 300 'a').take 300 = List.replicate 300 'a'
      simp only [List.take_replicate, Nat.min_self]
    rw [htake] at heq
    have hlen := congrArg List.length heq
    simp only [List.length_replicate, List.length_append] at hlen
    have hz : marker.length = 0 := by omega
    exact List.eq_nil_of_length_eq_zero hz

/-- C7 amended: the tab-4 lyrics display returns the lyrics unmodified,
with no truncation marker, regardless of their length; in particular a
10-character lyric is returned as exactly those 10 characters. -/
theorem lyric_display_identity :
    (∀ r : Record, lyric_display r = r.letra) ∧
    lyric_display ⟨"t", "A", "abcdefghij", "en", 0, 10⟩ = "abcdefghij" ∧
    (lyric_display ⟨"t", "A", "abcdefghij", "en", 0, 10⟩).length = 10 :=
  ⟨fun _ => rfl, rfl, rfl⟩

/-- The spec's scenario table [(A, 0.5), (A, -0.5), (B, 0.2)]. -/
def exTable : List Record :=
  [⟨"s1", "A", "la", "en", 1/2, 1⟩,
   ⟨"s2", "A", "lb", "en", -(1/2), 1⟩,
   ⟨"s3", "B", "lc", "en", 1/5, 1⟩]

/-- Two records with equal polarity by different artists, in the order
A then B, used to exhibit tie-break behaviour. -/
def rA : Record := ⟨"t1", "A", "x", "en", 1/2, 1⟩

/-- See `rA`. -/
def rB : Record := ⟨"t2", "B", "x", "en", 1/2, 1⟩

/-- C3: `art_group` has one `(artist, mean polarity)` pair per surviving
group, is sorted descending by mean, and is cut to the first `k`: its
length is exactly `min k (#distinct artists)` (hence at most each), every
output pair is a distinct artist of the table with its group mean, and on
the spec's scenario table the means are A ↦ 0, B ↦ 0.2 with
`art_group (k := 1) = [(B, 0.2)]`. -/
theorem art_group_correct (df : List Record) (k : ℕ) :
    (art_group df k).length = min k ((df.map Record.artista).dedup).length ∧
    (art_group df k).length ≤ k ∧
    (art_group df k).length ≤ ((df.map Record.artista).dedup).length ∧
    (art_group df k).Pairwise (fun p q => q.2 ≤ p.2) ∧
    (∀ p ∈ art_group df k,
      p.1 ∈ df.map Record.artista ∧ p.2 = groupMean df p.1) ∧
    groupMean exTable "A" = 0 ∧ groupMean exTable "B" = 1/5 ∧
    art_group exTable 1 = [("B", 1/5)] := by
  have hlen : (art_group df k).length
      = min k ((df.map Record.artista).dedup).length := by
    simp [art_group, sortByKey, artPairs, groupKeys, List.length_take]
  have hs : (sortByKey Prod.snd (artPairs df)).Pairwise (keyLe Prod.snd) :=
    List.sorted_insertionSort (keyLe Prod.snd) (artPairs df)
  refine ⟨hlen, hlen ▸ Nat.min_le_left _ _, hlen ▸ Nat.min_le_right _ _, ?_, ?_, ?_, ?_, ?_⟩
  · exact List.Pairwise.sublist (List.take_sublist k _)
      (List.pairwise_reverse.mpr (hs.imp (fun h => h)))
  · intro p hp
    have hp1 : p ∈ (sortByKey Prod.snd (artPairs df)).reverse :=
      (List.take_sublist k _).subset hp
    rw [List.mem_reverse, sortByKey, List.mem_insertionSort] at hp1
    obtain ⟨a, ha, rfl⟩ := List.mem_map.mp hp1
    refine ⟨?_, rfl⟩
    rw [groupKeys, List.mem_insertionSort] at ha
    exact List.mem_dedup.mp ha
  · simp [groupMean, exTable, List.filter]
  · simp [groupMean, exTable, List.filter]
  · simp [art_group, artPairs, groupKeys, groupMean, sortByKey, exTable,
      List.filter, List.dedup, List.insertionSort, List.orderedInsert, strLe, keyLe]

/-- C4 counterexample: on the table [A, B] (that first-occurrence order)
with equal group means, `art_group` lists B before A — the reverse of the
first-occurrence order — because `groupby` sorts keys ascending and the
descending `sort_values` reverses the ascending order. -/
theorem art_group_tie_ctrex :
    [rA, rB].map Record.artista = ["A", "B"] ∧
    groupMean [rA, rB] "A" = groupMean [rA, rB] "B" ∧
    art_group [rA, rB] 20 = [("B", 1/2), ("A", 1/2)] := by
  refine ⟨by simp [rA, rB], ?_, ?_⟩ <;>
    simp [art_group, artPairs, groupKeys, groupMean, sortByKey, rA, rB,
      List.filter, List.dedup, List.insertionSort, List.orderedInsert, strLe, keyLe]

/-- C4 amended: `art_group` stays sorted descending by mean for every
table (so equal-mean artists sit in a contiguous block), but the relative
order inside such a block is whatever the underlying sort library yields
and is NOT first-occurrence order: on the two-artist table in
first-occurrence order A then B, with equal group means, the code (whose
tie order is deterministic on an array this small: numpy's quicksort
kernel is insertion sort below 16 elements, then pandas reverses the
ascending order) outputs B before A.  The group keys enter the sort in
ascending alphabetical order from `groupby` — the first conjunct — which
is what the reversal turns into the observed B-before-A. -/
theorem art_group_tie_break (df : List Record) (k : ℕ) :
    (artPairs df).Pairwise (fun p q => p.1 < q.1) ∧
    (art_group df k).Pairwise (fun p q => q.2 ≤ p.2) ∧
    ([rA, rB].map Record.artista = ["A", "B"] ∧
     groupMean [rA, rB] "A" = groupMean [rA, rB] "B" ∧
     (art_group [rA, rB] 20).map Prod.fst = ["B", "A"]) := by
  have hnd : (groupKeys df).Nodup :=
    ((List.perm_insertionSort strLe _).nodup_iff).mpr
      (List.nodup_dedup (df.map Record.artista))
  have hsort : (groupKeys df).Pairwise strLe :=
    List.sorted_insertionSort strLe (df.map Record.artista).dedup
  have hlt : (groupKeys df).Pairwise (fun a b : String => a < b) :=
    (hsort.and hnd).imp (fun h => lt_of_le_of_ne h.1 h.2)
  have hpairs : (artPairs df).Pairwise (fun p q => p.1 < q.1) := by
    rw [artPairs, List.pairwise_map]
    exact hlt
  have hdesc : (art_group df k).Pairwise (fun p q => q.2 ≤ p.2) :=
    List.Pairwise.sublist (List.take_sublist k _)
      (List.pairwise_reverse.mpr
        ((List.sorted_insertionSort (keyLe Prod.snd) (artPairs df)).imp
          (fun h => h)))
  refine ⟨hpairs, hdesc, by simp [rA, rB], ?_, ?_⟩ <;>
    simp [art_group, artPairs, groupKeys, groupMean, sortByKey, rA, rB,
      List.filter, List.dedup, List.insertionSort, List.orderedInsert, strLe, keyLe]

/-- C5 counterexample: two records of equal polarity in table order
`[rA, rB]`; the claim's stable tie-break would make `top_positive` begin
`[rA, rB]`, but the code (reverse of the ascending argsort) yields
`[rB, rA]`. -/
theorem rank_extremes_ctrex :
    rA.sent_polarity = rB.sent_polarity ∧
    rA.titulo ≠ rB.titulo ∧
    top_pos [rA, rB] 10 = [rB, rA] ∧
    top_neg [rA, rB] 10 = [rA, rB] := by
  refine ⟨rfl, by simp [rA, rB], ?_, ?_⟩ <;>
    simp [top_pos, top_neg, sortPolAsc, rA, rB,
      List.insertionSort, List.orderedInsert, keyLe]

/-- C5 amended: `top_neg` is the `k` lowest-polarity records in ascending
order and `top_pos` the `k` highest in descending order, both of length
`min k |table|` and drawn from the table, with every selected record
bounding every unselected one; the relative order of records of EQUAL
polarity is the underlying sort library's tie order and is not guaranteed
to be the original table order — on the two-record equal-polarity table
`[rA, rB]` (where the tie order is deterministic: numpy's quicksort
kernel is insertion sort below 16 elements, and pandas reverses the
ascending order for the descending sort) `top_pos` is `[rB, rA]`, the
reverse of table order, while `top_neg` is `[rA, rB]`. -/
theorem rank_extremes_correct (df : List Record) (k : ℕ) :
    (top_neg df k).Pairwise
      (fun r s => r.sent_polarity ≤ s.sent_polarity) ∧
    (top_pos df k).Pairwise
      (fun r s => s.sent_polarity ≤ r.sent_polarity) ∧
    (top_neg df k).length = min k df.length ∧
    (top_pos df k).length = min k df.length ∧
    (∀ r ∈ top_neg df k, r ∈ df) ∧
    (∀ r ∈ top_pos df k, r ∈ df) ∧
    (∀ r ∈ top_neg df k, ∀ s ∈ (sortPolAsc df).drop k,
      r.sent_polarity ≤ s.sent_polarity) ∧
    (∀ r ∈ top_pos df k, ∀ s ∈ ((sortPolAsc df).reverse).drop k,
      s.sent_polarity ≤ r.sent_polarity) ∧
    (rA.sent_polarity = rB.sent_polarity ∧
     top_pos [rA, rB] 10 = [rB, rA] ∧ top_neg [rA, rB] 10 = [rA, rB]) := by
  have hasc : (sortPolAsc df).Pairwise (keyLe Record.sent_polarity) :=
    List.sorted_insertionSort (keyLe Record.sent_polarity) df
  have hdesc : ((sortPolAsc df).reverse).Pairwise
      (fun r s => s.sent_polarity ≤ r.sent_polarity) :=
    List.pairwise_reverse.mpr (hasc.imp (fun h => h))
  refine ⟨?_, ?_, ?_, ?_, ?_, ?_, ?_, ?_, ?_⟩
  · exact List.Pairwise.sublist (List.take_sublist k _) (hasc.imp (fun h => h))
  · exact List.Pairwise.sublist (List.take_sublist k _) hdesc
  · simp [top_neg, sortPolAsc, List.length_take]
  · simp [top_pos, sortPolAsc, List.length_take]
  · intro r hr
    have := (List.take_sublist k _).subset hr
    rwa [sortPolAsc, List.mem_insertionSort] at this
  · intro r hr
    have := (List.take_sublist k _).subset hr
    rwa [List.mem_reverse, sortPolAsc, List.mem_insertionSort] at this
  · intro r hr s hs
    have h1 : ((sortPolAsc df).take k ++ (sortPolAsc df).drop k).Pairwise
        (keyLe Record.sent_polarity) := by
      rw [List.take_append_drop]
      exact hasc
    exact (List.pairwise_append.mp h1).2.2 r hr s hs
  · intro r hr s hs
    have h1 : (((sortPolAsc df).reverse).take k
        ++ ((sortPolAsc df).reverse).drop k).Pairwise
        (fun r s => s.sent_polarity ≤ r.sent_polarity) := by
      rw [List.take_append_drop]
      exact hdesc
    exact (List.pairwise_append.mp h1).2.2 r hr s hs
  · refine ⟨rfl, ?_, ?_⟩ <;>
      simp [top_pos, top_neg, sortPolAsc, rA, rB,
        List.insertionSort, List.orderedInsert, keyLe]

end SentimentoRock
